import Mathlib

/-!
Verification of the stconstruction repository (a FastAPI CMS for a
construction company) against its natural-language specification.

The development shallowly embeds the parts of the code the claims touch:

* `app/core/security/file_validator.py`: upload validation
  (`validate_image_upload`), the Python standard-library magic-byte
  sniffer `imghdr.what` it calls, and the save routines
  (`save_uploaded_file`, `compress_and_save_image`).
* `app/auth/dependencies.py`: the session identity resolver
  (`get_current_user`).
* `app/users/service.py`: `create_user`, `update_user_service`,
  `update_user_admin`; `app/admin/users.py`: `admin_user_add`.
* `app/projects/service.py`: `CityService.delete_city`,
  `ProjectService.create_project`, `ProjectService.toggle_publish`.

Bytes are modelled as `List Nat`, the relational store as Lean lists of
records, and the SQLAlchemy `first()` lookup as `List.find?`.  Error
details are abbreviated to short English tags; the code's behaviour is
determined by status codes and control flow, never by the message text.
-/

set_option autoImplicit false

namespace StConstruction

/-- Equality on `Except` results is decidable; used to evaluate the
services on concrete inputs. -/
instance {ε α : Type} [DecidableEq ε] [DecidableEq α] : DecidableEq (Except ε α) := fun x y =>
  match x, y with
  | Except.ok a, Except.ok b =>
      if h : a = b then isTrue (by rw [h])
      else isFalse (fun hc => by cases hc; exact h rfl)
  | Except.error a, Except.error b =>
      if h : a = b then isTrue (by rw [h])
      else isFalse (fun hc => by cases hc; exact h rfl)
  | Except.ok _, Except.error _ => isFalse (fun hc => by cases hc)
  | Except.error _, Except.ok _ => isFalse (fun hc => by cases hc)

/-! ## Byte-string helpers -/

/-- `hasLead pat bs` holds when `pat` is an initial segment of `bs`.
Models Python `bs.startswith(pat)` on bytes. -/
def hasLead : List Nat → List Nat → Bool
  | [], _ => true
  | _ :: _, [] => false
  | p :: ps, b :: bs => p == b && hasLead ps bs

/-- `occursIn pat bs` holds when `pat` occurs contiguously somewhere in
`bs`.  Models Python `pat in bs` on bytes. -/
def occursIn (pat : List Nat) : List Nat → Bool
  | [] => pat.isEmpty
  | b :: bs => hasLead pat (b :: bs) || occursIn pat bs

/-- Python slice `h[a:b]` on a byte string. -/
def byteSlice (h : List Nat) (a b : Nat) : List Nat :=
  (h.drop a).take (b - a)

/-! ## `imghdr.what` (Python standard library)

`validate_image_upload` calls `imghdr.what(None, h=file_content)`.  The
tests below are transcribed from CPython `Lib/imghdr.py`, in the order
the module registers them; the first test that matches decides the
detected type. -/

/-- JPEG data in JFIF or Exif format: `h[6:10] in (b'JFIF', b'Exif')`. -/
def test_jpeg (h : List Nat) : Bool :=
  byteSlice h 6 10 == [74, 70, 73, 70] || byteSlice h 6 10 == [69, 120, 105, 102]

/-- PNG signature `\x89PNG\r\n\x1a\n`. -/
def test_png (h : List Nat) : Bool :=
  hasLead [137, 80, 78, 71, 13, 10, 26, 10] h

/-- GIF: `h[:6] in (b'GIF87a', b'GIF89a')`. -/
def test_gif (h : List Nat) : Bool :=
  h.take 6 == [71, 73, 70, 56, 55, 97] || h.take 6 == [71, 73, 70, 56, 57, 97]

/-- TIFF in Motorola or Intel byte order: `h[:2] in (b'MM', b'II')`. -/
def test_tiff (h : List Nat) : Bool :=
  h.take 2 == [77, 77] || h.take 2 == [73, 73]

/-- SGI image library: starts with `\x01\xda`. -/
def test_rgb (h : List Nat) : Bool :=
  hasLead [1, 218] h

/-- PBM: `P`, then `1` or `4`, then whitespace. -/
def test_pbm (h : List Nat) : Bool :=
  match h with
  | b0 :: b1 :: b2 :: _ =>
      b0 == 80 && (b1 == 49 || b1 == 52) && [32, 9, 10, 13].contains b2
  | _ => false

/-- PGM: `P`, then `2` or `5`, then whitespace. -/
def test_pgm (h : List Nat) : Bool :=
  match h with
  | b0 :: b1 :: b2 :: _ =>
      b0 == 80 && (b1 == 50 || b1 == 53) && [32, 9, 10, 13].contains b2
  | _ => false

/-- PPM: `P`, then `3` or `6`, then whitespace. -/
def test_ppm (h : List Nat) : Bool :=
  match h with
  | b0 :: b1 :: b2 :: _ =>
      b0 == 80 && (b1 == 51 || b1 == 54) && [32, 9, 10, 13].contains b2
  | _ => false

/-- Sun raster file: starts with `\x59\xa6\x6a\x95`. -/
def test_rast (h : List Nat) : Bool :=
  hasLead [89, 166, 106, 149] h

/-- X bitmap: starts with the ASCII bytes of a C define line. -/
def test_xbm (h : List Nat) : Bool :=
  hasLead [35, 100, 101, 102, 105, 110, 101, 32] h

/-- BMP: starts with `BM`. -/
def test_bmp (h : List Nat) : Bool :=
  hasLead [66, 77] h

/-- WebP: starts with `RIFF` and `h[8:12] == b'WEBP'`. -/
def test_webp (h : List Nat) : Bool :=
  hasLead [82, 73, 70, 70] h && byteSlice h 8 12 == [87, 69, 66, 80]

/-- OpenEXR: starts with `\x76\x2f\x31\x01`. -/
def test_exr (h : List Nat) : Bool :=
  hasLead [118, 47, 49, 1] h

/-- `imghdr.what(None, h)`: runs the registered tests in order and
returns the first detected type, or `None`. -/
def imghdr_what (h : List Nat) : Option String :=
  if test_jpeg h then some "jpeg"
  else if test_png h then some "png"
  else if test_gif h then some "gif"
  else if test_tiff h then some "tiff"
  else if test_rgb h then some "rgb"
  else if test_pbm h then some "pbm"
  else if test_pgm h then some "pgm"
  else if test_ppm h then some "ppm"
  else if test_rast h then some "rast"
  else if test_xbm h then some "xbm"
  else if test_bmp h then some "bmp"
  else if test_webp h then some "webp"
  else if test_exr h then some "exr"
  else none

/-! ## Filename suffix (`pathlib.Path(...).suffix.lower()`) -/

/-- Last path component: the characters after the final `/`.
Models `pathlib.PurePath.name` for the filenames at hand. -/
def pathFinalComponent (s : String) : String :=
  String.mk ((s.data.reverse.takeWhile (fun c => c != '/')).reverse)

/-- Index of the last `.` in a character list, if any
(Python `name.rfind('.')` when the result is not `-1`). -/
def rfindDot : List Char → Option Nat
  | [] => none
  | c :: cs =>
      match rfindDot cs with
      | some i => some (i + 1)
      | none => if c = '.' then some 0 else none

/-- `Path(filename).suffix.lower()`: the final component's extension,
nonempty only when the last dot is neither the first nor the last
character of the name, lower-cased. -/
def fileSuffixLower (filename : String) : String :=
  let name := pathFinalComponent filename
  let cs := name.data
  match rfindDot cs with
  | some i =>
      if 0 < i ∧ i + 1 < cs.length then String.mk ((cs.drop i).map Char.toLower)
      else ""
  | none => ""

/-! ## `validate_image_upload` (`app/core/security/file_validator.py`) -/

/-- Allow-list of filename extensions. -/
def ALLOWED_IMAGE_EXTENSIONS : List String :=
  [".jpg", ".jpeg", ".png", ".gif", ".webp", ".svg"]

/-- Allow-list of declared MIME types. -/
def ALLOWED_IMAGE_MIMES : List String :=
  ["image/jpeg", "image/png", "image/gif", "image/webp", "image/svg+xml"]

/-- 10 MB ceiling for general images. -/
def MAX_IMAGE_SIZE : Nat := 10 * 1024 * 1024

/-- 5 MB ceiling for logos. -/
def MAX_LOGO_SIZE : Nat := 5 * 1024 * 1024

/-- An uploaded file: declared filename, declared content type (absent
when the client sent none), and the raw bytes. -/
structure UploadFile where
  filename : String
  content_type : Option String
  content : List Nat
deriving DecidableEq, Repr

/-- The image families accepted by the magic-byte step. -/
def allowedFamilies : List String := ["jpeg", "png", "gif", "webp"]

/-- The SVG branch of step 5: the content starts with an XML
declaration, starts with an `svg` tag, or contains an `svg` tag among
the first 200 bytes. -/
def svg_tag_check (content : List Nat) : Bool :=
  hasLead [60, 63, 120, 109, 108] content ||
  hasLead [60, 115, 118, 103] content ||
  occursIn [60, 115, 118, 103] (content.take 200)

/-- `validate_image_upload(file, max_size, allowed_extensions)`.
Checks, in the code's order: file presence, extension allow-list,
MIME allow-list, nonzero size, size ceiling, then magic bytes (the
SVG tag heuristic when the extension is `.svg`, otherwise
`imghdr.what` must detect one of the allowed families).  Error details
are abbreviated to tags. -/
def validate_image_upload (file : UploadFile) (max_size : Nat)
    (allowed_extensions : List String) : Except String Unit :=
  if file.filename = "" then Except.error "missing_file"
  else if ¬ (allowed_extensions.contains (fileSuffixLower file.filename) = true) then
    Except.error "invalid_extension"
  else
    match file.content_type with
    | none => Except.error "invalid_mime"
    | some ct =>
      if ¬ (ALLOWED_IMAGE_MIMES.contains ct = true) then
        Except.error "invalid_mime"
      else if file.content.length = 0 then Except.error "empty_file"
      else if max_size < file.content.length then Except.error "too_large"
      else if fileSuffixLower file.filename = ".svg" then
        if ¬ (svg_tag_check file.content = true) then Except.error "invalid_svg"
        else Except.ok ()
      else
        match imghdr_what file.content with
        | none => Except.error "not_an_image"
        | some t =>
          if ¬ (allowedFamilies.contains t = true) then
            Except.error "unsupported_format"
          else Except.ok ()

/-! ## Users (`app/users/`) -/

/-- A user row.  Modelled from the spec: `app/users/models.py` is not in
the source tree; the spec's data model lists id, email (unique), username
(unique), hashed_password, full_name, is_active, is_superuser (timestamps
are irrelevant to the claims and omitted).  Registration creates an
active, non-superuser account. -/
structure User where
  id : Nat
  email : String
  username : String
  hashed_password : String
  full_name : Option String
  is_active : Bool
  is_superuser : Bool
deriving DecidableEq, Repr

/-- `UserRepository.get_user_by_id`: first row with the given id. -/
def get_user_by_id (db : List User) (user_id : Nat) : Option User :=
  db.find? (fun u => u.id == user_id)

/-- `UserRepository.get_user_by_email`: first row with the given email. -/
def get_user_by_email (db : List User) (email : String) : Option User :=
  db.find? (fun u => u.email == email)

/-- `UserRepository.get_user_by_username`. -/
def get_user_by_username (db : List User) (username : String) : Option User :=
  db.find? (fun u => u.username == username)

/-- Commit of an ORM mutation: replace the first row with the given id
(the object `get_user_by_id` returned and the service mutated). -/
def replaceUserById (db : List User) (user_id : Nat) (u : User) : List User :=
  match db with
  | [] => []
  | v :: vs => if v.id == user_id then u :: vs else v :: replaceUserById vs user_id u

/-! ## Identity resolver (`app/auth/dependencies.py`) -/

/-- Outcome of `get_current_user`: the resolved user, or the status code
of the `HTTPException` raised. -/
inductive AuthResult where
  | user (u : User)
  | httpError (status : Nat)
deriving DecidableEq, Repr

/-- `get_current_user(request, session)`.  The first component is the
outcome; the second is the session's `user_id` entry afterwards (`none`
when `request.session.clear()` ran or no id was stored).  Python's
`if not user_id` is truthy: it fires on a missing key and on the
falsy id `0`. -/
def get_current_user (db : List User) (session_user_id : Option Nat) :
    AuthResult × Option Nat :=
  match session_user_id with
  | none => (AuthResult.httpError 401, session_user_id)
  | some uid =>
    if uid = 0 then (AuthResult.httpError 401, session_user_id)
    else
      match get_user_by_id db uid with
      | none => (AuthResult.httpError 404, none)
      | some u =>
        if ¬ (u.is_active = true) then (AuthResult.httpError 403, none)
        else (AuthResult.user u, session_user_id)

/-! ## User services (`app/users/service.py`) -/

/-- The registration form: email, username, password, optional full
name (pydantic `RegisterForm`, all plain strings). -/
structure RegisterForm where
  email : String
  username : String
  password : String
  full_name : Option String
deriving DecidableEq, Repr

/-- A service error: HTTP status code plus a detail tag. -/
structure SvcError where
  status : Nat
  detail : String
deriving DecidableEq, Repr

/-- `create_user(session, user_data)`.  The password hash is a
parameter: its value never influences control flow.  Returns the
outcome together with the store afterwards: duplicate email → 409,
duplicate username → 409, password shorter than 8 characters → 400,
each checked before any row is written; otherwise the new row (fresh
id supplied by the store) is appended. -/
def create_user (hash : String → String) (db : List User) (next_id : Nat)
    (user_data : RegisterForm) : Except SvcError User × List User :=
  if (get_user_by_email db user_data.email).isSome then
    (Except.error ⟨409, "email_taken"⟩, db)
  else if (get_user_by_username db user_data.username).isSome then
    (Except.error ⟨409, "username_taken"⟩, db)
  else if user_data.password.length < 8 then
    (Except.error ⟨400, "password_too_short"⟩, db)
  else
    let u : User :=
      { id := next_id
        email := user_data.email
        username := user_data.username
        hashed_password := hash user_data.password
        full_name := user_data.full_name
        is_active := true
        is_superuser := false }
    (Except.ok u, db ++ [u])

/-- A pydantic `UserUpdate` with `exclude_unset` semantics: `none`
fields are untouched. -/
structure UserUpdate where
  email : Option String
  password : Option String
  username : Option String
  full_name : Option String
deriving DecidableEq, Repr

/-- Apply the set fields of a `UserUpdate` to a user row; a set
password is hashed into `hashed_password`. -/
def applyUserUpdate (hash : String → String) (u : User) (upd : UserUpdate) : User :=
  let u1 := match upd.email with
    | some e => { u with email := e }
    | none => u
  let u2 := match upd.password with
    | some p => { u1 with hashed_password := hash p }
    | none => u1
  let u3 := match upd.username with
    | some n => { u2 with username := n }
    | none => u2
  match upd.full_name with
  | some f => { u3 with full_name := some f }
  | none => u3

/-- `update_user_service(session, user_id, user_data)`: 404 when the id
matches no row, otherwise sets exactly the fields present in the
update and commits. -/
def update_user_service (hash : String → String) (db : List User) (user_id : Nat)
    (user_data : UserUpdate) : Except SvcError User × List User :=
  match get_user_by_id db user_id with
  | none => (Except.error ⟨404, "user_not_found"⟩, db)
  | some u =>
    let u2 := applyUserUpdate hash u user_data
    (Except.ok u2, replaceUserById db user_id u2)

/-- `update_user_admin(session, user_id, email, full_name, is_superuser,
current_user_id)`: 404 on a missing target; 400 when an admin tries to
drop their own superuser flag; 409 when changing the email to one
another row holds; otherwise sets email, full name and the superuser
flag and commits. -/
def update_user_admin (db : List User) (user_id : Nat) (email full_name : String)
    (is_superuser : Bool) (current_user_id : Nat) : Except SvcError User × List User :=
  match get_user_by_id db user_id with
  | none => (Except.error ⟨404, "user_not_found"⟩, db)
  | some u =>
    if u.id = current_user_id ∧ is_superuser = false then
      (Except.error ⟨400, "cannot_remove_own_superuser"⟩, db)
    else if u.email ≠ email ∧ (get_user_by_email db email).isSome then
      (Except.error ⟨409, "email_exists"⟩, db)
    else
      let u2 := { u with email := email, full_name := some full_name,
                         is_superuser := is_superuser }
      (Except.ok u2, replaceUserById db user_id u2)

/-! ## Admin user-add route (`app/admin/users.py`) -/

/-- The redirect the `POST /admin/users/add` handler answers with,
identified by its query-string flag. -/
inductive AddRedirect where
  | successCreated
  | errorAlreadyExists
  | errorInvalidPassword
  | errorUnknown
deriving DecidableEq, Repr

/-- `admin_user_add`: builds a `RegisterForm`, calls `create_user`,
promotes the new row to superuser when the form asked for it, and maps
the outcome to a redirect: success → `success=created`, 409 →
`error=already_exists`, 400 → `error=invalid_password`, any other
`HTTPException` → `error=unknown`. -/
def admin_user_add (hash : String → String) (db : List User) (next_id : Nat)
    (email username full_name password : String) (is_superuser : Bool) :
    AddRedirect × List User :=
  let form : RegisterForm :=
    { email := email, username := username, password := password,
      full_name := some full_name }
  match create_user hash db next_id form with
  | (Except.ok u, db2) =>
      if is_superuser then
        let u2 := { u with is_superuser := true }
        (AddRedirect.successCreated, replaceUserById db2 u.id u2)
      else (AddRedirect.successCreated, db2)
  | (Except.error e, db2) =>
      if e.status = 409 then (AddRedirect.errorAlreadyExists, db2)
      else if e.status = 400 then (AddRedirect.errorInvalidPassword, db2)
      else (AddRedirect.errorUnknown, db2)

/-! ## Cities and projects (`app/projects/models.py`, `repository.py`,
`service.py`) -/

/-- Project class enum. -/
inductive ProjectClass where
  | economy | comfort | business | premium | elite
deriving DecidableEq, Repr

/-- Project status enum. -/
inductive ProjectStatus where
  | current | completed | planned
deriving DecidableEq, Repr

/-- A city row (timestamps omitted: no claim touches them). -/
structure City where
  id : Nat
  name : String
  slug : String
  is_active : Bool
  sort_order : Nat
deriving DecidableEq, Repr

/-- A project row.  `images` is the JSON array of image paths. -/
structure Project where
  id : Nat
  title : String
  slug : String
  subtitle : Option String
  description : Option String
  city_id : Nat
  address : String
  project_class : ProjectClass
  status : ProjectStatus
  implementation_stage : Option String
  completion_date : Option String
  sold_percent : Nat
  images : List String
  is_published : Bool
deriving DecidableEq, Repr

/-- The relational store the city/project services act on. -/
structure Store where
  cities : List City
  projects : List Project
deriving DecidableEq, Repr

/-- `CityRepository.get_city_by_id`. -/
def get_city_by_id (s : Store) (city_id : Nat) : Option City :=
  s.cities.find? (fun c => c.id == city_id)

/-- `ProjectRepository.get_project_by_id`. -/
def get_project_by_id (s : Store) (project_id : Nat) : Option Project :=
  s.projects.find? (fun p => p.id == project_id)

/-- `ProjectRepository.get_project_by_slug`. -/
def get_project_by_slug (s : Store) (slug : String) : Option Project :=
  s.projects.find? (fun p => p.slug == slug)

/-- `ProjectRepository.get_projects_by_city(session, city_id,
published_only)`: the rows referencing the city, restricted to
published ones when asked. -/
def get_projects_by_city (s : Store) (city_id : Nat) (published_only : Bool) :
    List Project :=
  s.projects.filter (fun p => p.city_id == city_id && (!published_only || p.is_published))

/-- `CityService.delete_city`: 404 on a missing city, 400 while any
project (published or not) references it, otherwise the row is
deleted. -/
def delete_city (s : Store) (city_id : Nat) : Except SvcError Unit × Store :=
  match get_city_by_id s city_id with
  | none => (Except.error ⟨404, "city_not_found"⟩, s)
  | some _ =>
    let projects := get_projects_by_city s city_id false
    if projects ≠ [] then
      (Except.error ⟨400, "city_has_projects"⟩, s)
    else
      (Except.ok (), { s with cities := s.cities.filter (fun c => ¬ (c.id = city_id)) })

/-- The payload of `ProjectCreate` (pydantic). -/
structure ProjectCreate where
  title : String
  slug : String
  subtitle : Option String
  description : Option String
  city_id : Nat
  address : String
  project_class : ProjectClass
  status : ProjectStatus
  implementation_stage : Option String
  completion_date : Option String
  sold_percent : Nat
  images : List String
  is_published : Bool
deriving DecidableEq, Repr

/-- `ProjectService.create_project`: 409 on a duplicate slug, 404 when
the referenced city does not exist, otherwise the row (fresh id from
the store) is appended. -/
def create_project (s : Store) (next_id : Nat) (d : ProjectCreate) :
    Except SvcError Project × Store :=
  if (get_project_by_slug s d.slug).isSome then
    (Except.error ⟨409, "slug_exists"⟩, s)
  else if (get_city_by_id s d.city_id).isNone then
    (Except.error ⟨404, "city_not_found"⟩, s)
  else
    let p : Project :=
      { id := next_id, title := d.title, slug := d.slug, subtitle := d.subtitle,
        description := d.description, city_id := d.city_id, address := d.address,
        project_class := d.project_class, status := d.status,
        implementation_stage := d.implementation_stage,
        completion_date := d.completion_date, sold_percent := d.sold_percent,
        images := d.images, is_published := d.is_published }
    (Except.ok p, { s with projects := s.projects ++ [p] })

/-- Commit of an ORM mutation on a project: replace the first row with
the given id. -/
def replaceProjectById (ps : List Project) (project_id : Nat) (p : Project) :
    List Project :=
  match ps with
  | [] => []
  | q :: qs => if q.id == project_id then p :: qs else q :: replaceProjectById qs project_id p

/-- `ProjectService.toggle_publish`: 404 on a missing project,
otherwise flips `is_published` on the fetched row and commits it. -/
def toggle_publish (s : Store) (project_id : Nat) : Except SvcError Project × Store :=
  match get_project_by_id s project_id with
  | none => (Except.error ⟨404, "project_not_found"⟩, s)
  | some p =>
    let p2 := { p with is_published := !p.is_published }
    (Except.ok p2, { s with projects := replaceProjectById s.projects project_id p2 })

/-- Referential integrity of `project.city_id` over a store: every
stored project references an existing city. -/
def cityRefsOk (s : Store) : Prop :=
  ∀ p ∈ s.projects, ∃ c ∈ s.cities, c.id = p.city_id

/-! ## Saving uploads (`save_uploaded_file`, `compress_and_save_image`)

The two save routines do file I/O; the embedding makes the filesystem
explicit (an association of paths to byte strings) and injects the
possible failures of the underlying primitives through an oracle: the
`open`/`write`/Pillow pipeline either completes, fails after creating
the file with some partial bytes in it, or fails before the file
exists.  Both routines' `except` blocks remove the destination path
when it exists and re-raise a generic error. -/

/-- A flat filesystem: what each path holds. -/
def FS := List (String × List Nat)

/-- Lookup of a path. -/
def fsRead (fs : FS) (path : String) : Option (List Nat) :=
  (List.find? (fun e => e.1 == path) fs).map Prod.snd

/-- `open(path, "wb")` followed by a complete write: the path now holds
exactly the given bytes. -/
def fsWrite (fs : FS) (path : String) (content : List Nat) : FS :=
  (path, content) :: List.filter (fun e => ¬ (e.1 = path)) fs

/-- `os.remove(path)` guarded by `path.exists()`: drop the path when
present. -/
def fsRemoveIfPresent (fs : FS) (path : String) : FS :=
  List.filter (fun e => ¬ (e.1 = path)) fs

/-- How the fallible write pipeline behaves on this invocation:
it completes; it raises after the file was created, leaving some
partial bytes behind; or it raises before the file was created. -/
inductive WriteOutcome where
  | completes
  | failsWithPartial (partialBytes : List Nat)
  | failsBeforeCreate
deriving DecidableEq, Repr

/-- `save_uploaded_file(file, destination_dir, unique_filename)`: write
the (already validated) bytes to the destination path; on any
exception remove the partial file if it exists and signal a generic
error ("Ошибка при сохранении файла"). -/
def save_uploaded_file (fs : FS) (path : String) (content : List Nat)
    (outcome : WriteOutcome) : Except String String × FS :=
  match outcome with
  | WriteOutcome.completes => (Except.ok path, fsWrite fs path content)
  | WriteOutcome.failsWithPartial w =>
      (Except.error "save_failed", fsRemoveIfPresent (fsWrite fs path w) path)
  | WriteOutcome.failsBeforeCreate =>
      (Except.error "save_failed", fsRemoveIfPresent fs path)

/-- The pure part of `compress_and_save_image`'s Pillow branch that the
claims can see: what bytes end up at the destination.  `processed`
stands for the Pillow decode/resize/re-encode of the content (its
value never influences the cleanup logic). -/
def compress_and_save_image (fs : FS) (path : String) (content : List Nat)
    (file_extension : String) (processed : List Nat → List Nat)
    (outcome : WriteOutcome) : Except String String × FS :=
  if file_extension = ".svg" then
    -- SVG: saved byte-for-byte without compression.
    match outcome with
    | WriteOutcome.completes => (Except.ok path, fsWrite fs path content)
    | WriteOutcome.failsWithPartial w =>
        (Except.error "compress_failed", fsRemoveIfPresent (fsWrite fs path w) path)
    | WriteOutcome.failsBeforeCreate =>
        (Except.error "compress_failed", fsRemoveIfPresent fs path)
  else
    match outcome with
    | WriteOutcome.completes => (Except.ok path, fsWrite fs path (processed content))
    | WriteOutcome.failsWithPartial w =>
        (Except.error "compress_failed", fsRemoveIfPresent (fsWrite fs path w) path)
    | WriteOutcome.failsBeforeCreate =>
        (Except.error "compress_failed", fsRemoveIfPresent fs path)

/-! ## Theorems -/

/-- Inversion for the validator: an upload passes exactly when every
one of the six checks passes. -/
theorem validate_ok_iff (file : UploadFile) (max_size : Nat)
    (allowed_extensions : List String) :
    validate_image_upload file max_size allowed_extensions = Except.ok () ↔
      (file.filename ≠ "" ∧
       allowed_extensions.contains (fileSuffixLower file.filename) = true ∧
       (∃ ct, file.content_type = some ct ∧ ALLOWED_IMAGE_MIMES.contains ct = true) ∧
       file.content.length ≠ 0 ∧
       file.content.length ≤ max_size ∧
       (if fileSuffixLower file.filename = ".svg" then
          svg_tag_check file.content = true
        else
          ∃ t, imghdr_what file.content = some t ∧ allowedFamilies.contains t = true)) := by
  unfold validate_image_upload
  constructor
  · intro h
    by_cases hname : file.filename = ""
    · rw [if_pos hname] at h; exact Except.noConfusion h
    rw [if_neg hname] at h
    by_cases hext : allowed_extensions.contains (fileSuffixLower file.filename) = true
    case neg => rw [if_pos hext] at h; exact Except.noConfusion h
    rw [if_neg (not_not_intro hext)] at h
    rcases hct : file.content_type with _ | ct
    · simp only [hct] at h
      exact Except.noConfusion h
    simp only [hct] at h
    by_cases hmime : ALLOWED_IMAGE_MIMES.contains ct = true
    case neg => rw [if_pos hmime] at h; exact Except.noConfusion h
    rw [if_neg (not_not_intro hmime)] at h
    by_cases hz : file.content.length = 0
    · rw [if_pos hz] at h; exact Except.noConfusion h
    rw [if_neg hz] at h
    by_cases hgt : max_size < file.content.length
    · rw [if_pos hgt] at h; exact Except.noConfusion h
    rw [if_neg hgt] at h
    by_cases hsvg : fileSuffixLower file.filename = ".svg"
    · rw [if_pos hsvg] at h
      by_cases hsv : svg_tag_check file.content = true
      case neg => rw [if_pos hsv] at h; exact Except.noConfusion h
      refine ⟨hname, hext, ⟨ct, rfl, hmime⟩, hz, Nat.le_of_not_lt hgt, ?_⟩
      rw [if_pos hsvg]; exact hsv
    · rw [if_neg hsvg] at h
      rcases him : imghdr_what file.content with _ | t
      · simp only [him] at h
        exact Except.noConfusion h
      simp only [him] at h
      by_cases hfam : allowedFamilies.contains t = true
      case neg => rw [if_pos hfam] at h; exact Except.noConfusion h
      refine ⟨hname, hext, ⟨ct, rfl, hmime⟩, hz, Nat.le_of_not_lt hgt, ?_⟩
      rw [if_neg hsvg]; exact ⟨t, rfl, hfam⟩
  · rintro ⟨hname, hext, ⟨ct, hct, hmime⟩, hz, hle, hlast⟩
    rw [if_neg hname, if_neg (not_not_intro hext)]
    simp only [hct]
    rw [if_neg (not_not_intro hmime), if_neg hz, if_neg (Nat.not_lt.mpr hle)]
    by_cases hsvg : fileSuffixLower file.filename = ".svg"
    · rw [if_pos hsvg]
      rw [if_pos hsvg] at hlast
      rw [if_neg (not_not_intro hlast)]
    · rw [if_neg hsvg]
      rw [if_neg hsvg] at hlast
      obtain ⟨t, him, hfam⟩ := hlast
      simp only [him]
      rw [if_neg (not_not_intro hfam)]

/-- C10: a zero-byte upload is rejected with the empty-file error even
when its filename, extension and declared MIME type are all in the
allow-lists: `validate_image_upload` enforces a nonzero size floor in
addition to the documented size ceiling. -/
theorem empty_upload_rejected (file : UploadFile) (max_size : Nat)
    (allowed_extensions : List String)
    (hname : file.filename ≠ "")
    (hext : allowed_extensions.contains (fileSuffixLower file.filename) = true)
    (hmime : ∃ ct, file.content_type = some ct ∧ ALLOWED_IMAGE_MIMES.contains ct = true)
    (hempty : file.content = []) :
    validate_image_upload file max_size allowed_extensions = Except.error "empty_file" := by
  obtain ⟨ct, hct, hctm⟩ := hmime
  unfold validate_image_upload
  rw [if_neg hname, if_neg (not_not_intro hext)]
  simp only [hct]
  rw [if_neg (not_not_intro hctm), hempty]
  rfl

/-- Witness for C10: the concrete empty `.png` upload is rejected. -/
theorem empty_upload_rejected_witness :
    validate_image_upload ⟨"a.png", some "image/png", []⟩ MAX_IMAGE_SIZE
      ALLOWED_IMAGE_EXTENSIONS = Except.error "empty_file" :=
  empty_upload_rejected ⟨"a.png", some "image/png", []⟩ MAX_IMAGE_SIZE
    ALLOWED_IMAGE_EXTENSIONS (by decide) (by decide) ⟨"image/png", rfl, by decide⟩ rfl

/-- The image family a filename extension declares, following the
spec's words for C2 ("magic-byte sniffing confirms the declared image
family"); compared against what the code actually checks. -/
def declaredFamily (ext : String) : Option String :=
  if ext = ".jpg" ∨ ext = ".jpeg" then some "jpeg"
  else if ext = ".png" then some "png"
  else if ext = ".gif" then some "gif"
  else if ext = ".webp" then some "webp"
  else none

/-- A file named `a.png` whose bytes open with a JFIF JPEG header. -/
def pngNamedJpeg : UploadFile :=
  { filename := "a.png", content_type := some "image/png",
    content := [255, 216, 255, 224, 0, 16, 74, 70, 73, 70] }

/-- C2 counterexample: the validator accepts `a.png` although its magic
bytes sniff as `jpeg`, not the `png` family the extension declares - the
code only requires membership in the allowed families and never compares
the sniffed family with the extension. -/
theorem sniffed_family_not_compared_to_extension :
    validate_image_upload pngNamedJpeg MAX_IMAGE_SIZE ALLOWED_IMAGE_EXTENSIONS
        = Except.ok () ∧
    fileSuffixLower pngNamedJpeg.filename = ".png" ∧
    imghdr_what pngNamedJpeg.content = some "jpeg" ∧
    declaredFamily ".png" ≠ some "jpeg" := by decide

/-- C2 (amended): every upload `validate_image_upload` accepts whose
extension is not `.svg` sniffs as some allowed image family (jpeg, png,
gif or webp), though not necessarily the family the extension declares;
every accepted `.svg` upload passes the SVG tag-presence heuristic. -/
theorem accepted_upload_sniffs_allowed_family (file : UploadFile) (max_size : Nat)
    (allowed_extensions : List String)
    (hok : validate_image_upload file max_size allowed_extensions = Except.ok ()) :
    (fileSuffixLower file.filename ≠ ".svg" →
       ∃ t, imghdr_what file.content = some t ∧ allowedFamilies.contains t = true) ∧
    (fileSuffixLower file.filename = ".svg" → svg_tag_check file.content = true) := by
  rw [validate_ok_iff] at hok
  obtain ⟨-, -, -, -, -, hlast⟩ := hok
  by_cases hsvg : fileSuffixLower file.filename = ".svg"
  · rw [if_pos hsvg] at hlast
    exact ⟨fun hne => absurd hsvg hne, fun _ => hlast⟩
  · rw [if_neg hsvg] at hlast
    exact ⟨fun _ => hlast, fun heq => absurd heq hsvg⟩

/-- Witness for the amended C2, at the accepted concrete upload. -/
theorem accepted_upload_sniffs_allowed_family_witness :
    (fileSuffixLower pngNamedJpeg.filename ≠ ".svg" →
       ∃ t, imghdr_what pngNamedJpeg.content = some t ∧
         allowedFamilies.contains t = true) ∧
    (fileSuffixLower pngNamedJpeg.filename = ".svg" →
       svg_tag_check pngNamedJpeg.content = true) :=
  accepted_upload_sniffs_allowed_family pngNamedJpeg MAX_IMAGE_SIZE
    ALLOWED_IMAGE_EXTENSIONS (by decide)

/-- C3's hypothesis, formalised: the content's magic bytes match no
allowed image family - for `.svg` names the SVG tag heuristic fails,
otherwise `imghdr` detects nothing or a family outside the allowed
four. -/
def magicRejects (file : UploadFile) : Bool :=
  if fileSuffixLower file.filename = ".svg" then ! svg_tag_check file.content
  else
    match imghdr_what file.content with
    | none => true
    | some t => ! (allowedFamilies.contains t)

/-- C3: an upload whose extension is in the allow-list but whose magic
bytes match no allowed image family is never accepted by
`validate_image_upload`. -/
theorem bad_magic_never_accepted (file : UploadFile) (max_size : Nat)
    (hext : ALLOWED_IMAGE_EXTENSIONS.contains (fileSuffixLower file.filename) = true)
    (hmagic : magicRejects file = true) :
    validate_image_upload file max_size ALLOWED_IMAGE_EXTENSIONS ≠ Except.ok () := by
  intro hok
  rw [validate_ok_iff] at hok
  obtain ⟨-, -, -, -, -, hlast⟩ := hok
  unfold magicRejects at hmagic
  by_cases hsvg : fileSuffixLower file.filename = ".svg"
  · rw [if_pos hsvg] at hmagic hlast
    rw [hlast] at hmagic
    exact Bool.noConfusion hmagic
  · rw [if_neg hsvg] at hmagic hlast
    obtain ⟨t, him, hfam⟩ := hlast
    simp [him] at hmagic
    simp at hfam
    exact hmagic hfam

/-- Witness for C3: a `.png`-named file of junk bytes is rejected. -/
theorem bad_magic_never_accepted_witness :
    validate_image_upload ⟨"a.png", some "image/png", [1, 2, 3]⟩ MAX_IMAGE_SIZE
      ALLOWED_IMAGE_EXTENSIONS ≠ Except.ok () :=
  bad_magic_never_accepted ⟨"a.png", some "image/png", [1, 2, 3]⟩ MAX_IMAGE_SIZE
    (by decide) (by decide)

/-- C1 counterexample: with an empty user table and a session holding
user id 5, `get_current_user` clears the session but fails with status
404, not the 401 Unauthorized the claim states for an id that maps to
no user record. -/
theorem resolver_unknown_id_is_404 :
    get_current_user [] (some 5) = (AuthResult.httpError 404, none) ∧
    AuthResult.httpError 404 ≠ AuthResult.httpError 401 := by decide

/-- C1 (amended): the identity resolver fails with 401 when the session
holds no (or the falsy 0) user id, leaving the session alone; clears
the session and fails with 404 (not 401) when the id maps to no user
row; clears the session and fails with 403 Forbidden when the mapped
user is inactive; returns the mapped user with the session intact
otherwise. -/
theorem resolver_cases (db : List User) (sid : Option Nat) :
    ((sid = none ∨ sid = some 0) →
        get_current_user db sid = (AuthResult.httpError 401, sid)) ∧
    (∀ uid, sid = some uid → uid ≠ 0 → get_user_by_id db uid = none →
        get_current_user db sid = (AuthResult.httpError 404, none)) ∧
    (∀ uid u, sid = some uid → uid ≠ 0 → get_user_by_id db uid = some u →
        u.is_active = false →
        get_current_user db sid = (AuthResult.httpError 403, none)) ∧
    (∀ uid u, sid = some uid → uid ≠ 0 → get_user_by_id db uid = some u →
        u.is_active = true →
        get_current_user db sid = (AuthResult.user u, sid)) := by
  refine ⟨?_, ?_, ?_, ?_⟩
  · rintro (rfl | rfl) <;> rfl
  · rintro uid rfl hne hnone
    simp [get_current_user, hne, hnone]
  · rintro uid u rfl hne hu hina
    simp [get_current_user, hne, hu, hina]
  · rintro uid u rfl hne hu hact
    simp [get_current_user, hne, hu, hact]

/-- Witness for the amended C1: a blocked user in the table, session id
1 - the resolver answers 403 and clears the session. -/
theorem resolver_cases_witness :
    get_current_user [⟨1, "a@x.com", "a", "h", none, false, false⟩] (some 1)
      = (AuthResult.httpError 403, none) :=
  (resolver_cases [⟨1, "a@x.com", "a", "h", none, false, false⟩] (some 1)).2.2.1
    1 ⟨1, "a@x.com", "a", "h", none, false, false⟩ rfl (by decide) (by decide) rfl

/-- C4: a user-add whose email or username is already taken redirects
with the `already_exists` flag and leaves the user table unchanged (no
second row); and the concrete scenario: against an empty table, POSTing
(a@x.com, a, password1) creates the one user and redirects with
`success=created`, and repeating the identical POST redirects with
`error=already_exists`, leaving that single row. -/
theorem duplicate_user_add_conflict :
    (∀ (hash : String → String) (db : List User) (next_id : Nat)
        (form : RegisterForm),
        ((get_user_by_email db form.email).isSome = true ∨
         (get_user_by_username db form.username).isSome = true) →
        ∃ msg, create_user hash db next_id form = (Except.error ⟨409, msg⟩, db)) ∧
    (∀ (hash : String → String) (db : List User) (next_id : Nat)
        (email username full_name password : String) (su : Bool),
        ((get_user_by_email db email).isSome = true ∨
         (get_user_by_username db username).isSome = true) →
        admin_user_add hash db next_id email username full_name password su
          = (AddRedirect.errorAlreadyExists, db)) ∧
    (∀ hash : String → String,
        ∃ u : User,
          u.email = "a@x.com" ∧ u.username = "a" ∧
          admin_user_add hash [] 1 "a@x.com" "a" "A" "password1" false
            = (AddRedirect.successCreated, [u]) ∧
          admin_user_add hash [u] 2 "a@x.com" "a" "A" "password1" false
            = (AddRedirect.errorAlreadyExists, [u])) := by
  refine ⟨?_, ?_, ?_⟩
  · intro hash db next_id form hdup
    rcases hdup with hd | hd
    · exact ⟨"email_taken", by unfold create_user; simp [hd]⟩
    · by_cases he : (get_user_by_email db form.email).isSome = true
      · exact ⟨"email_taken", by unfold create_user; simp [he]⟩
      · exact ⟨"username_taken", by unfold create_user; simp [he, hd]⟩
  · intro hash db next_id email username full_name password su hdup
    unfold admin_user_add create_user
    rcases hdup with hd | hd
    · simp [hd]
    · by_cases he : (get_user_by_email db email).isSome = true
      · simp [he]
      · simp [he, hd]
  · intro hash
    exact ⟨⟨1, "a@x.com", "a", hash "password1", some "A", true, false⟩, rfl, rfl, rfl, rfl⟩

/-- Witness for C4, discharging the duplicate hypothesis at the table
the scenario produced. -/
theorem duplicate_user_add_conflict_witness :
    admin_user_add (fun s => s) [⟨1, "a@x.com", "a", "password1", some "A", true, false⟩]
        2 "a@x.com" "a" "A" "password1" false
      = (AddRedirect.errorAlreadyExists,
         [⟨1, "a@x.com", "a", "password1", some "A", true, false⟩]) :=
  duplicate_user_add_conflict.2.1 (fun s => s)
    [⟨1, "a@x.com", "a", "password1", some "A", true, false⟩]
    2 "a@x.com" "a" "A" "password1" false (Or.inl (by decide))

/-- C5 counterexample: a registration with the 5-character password
"short" and an already-registered email is rejected with 409, not the
400 the claim promises for every short-password attempt (the email
check runs first). -/
theorem short_password_with_taken_email_is_409 :
    ("short".length < 8) ∧
    (create_user (fun s => s) [⟨1, "a@x.com", "a", "h", none, true, false⟩] 2
        ⟨"a@x.com", "b", "short", none⟩).1
      = Except.error ⟨409, "email_taken"⟩ := by decide

/-- C5 (amended): every registration attempt with a password shorter
than 8 characters is rejected before any row is created - the store
comes back unchanged - with a 400 error when neither the email nor the
username is already taken, and with the earlier 409 conflict
otherwise. -/
theorem short_password_rejected (hash : String → String) (db : List User)
    (next_id : Nat) (form : RegisterForm)
    (hpw : form.password.length < 8) :
    (∃ e : SvcError, create_user hash db next_id form = (Except.error e, db)) ∧
    (get_user_by_email db form.email = none → get_user_by_username db form.username = none →
      create_user hash db next_id form
        = (Except.error ⟨400, "password_too_short"⟩, db)) := by
  constructor
  · by_cases he : (get_user_by_email db form.email).isSome = true
    · exact ⟨⟨409, "email_taken"⟩, by unfold create_user; simp [he]⟩
    · by_cases hu : (get_user_by_username db form.username).isSome = true
      · exact ⟨⟨409, "username_taken"⟩, by unfold create_user; simp [he, hu]⟩
      · exact ⟨⟨400, "password_too_short"⟩, by unfold create_user; simp [he, hu, hpw]⟩
  · intro he hu
    unfold create_user
    simp [he, hu, hpw]

/-- Witness for the amended C5: the concrete short-password attempt on
an empty table is rejected with 400 and the table stays empty. -/
theorem short_password_rejected_witness :
    (∃ e : SvcError, create_user (fun s => s) [] 1 ⟨"a@x.com", "a", "short", none⟩
        = (Except.error e, [])) ∧
    (get_user_by_email [] "a@x.com" = none → get_user_by_username [] "a" = none →
      create_user (fun s => s) [] 1 ⟨"a@x.com", "a", "short", none⟩
        = (Except.error ⟨400, "password_too_short"⟩, [])) :=
  short_password_rejected (fun s => s) [] 1 ⟨"a@x.com", "a", "short", none⟩ (by decide)

/-- `applyUserUpdate` never touches the superuser flag: the pydantic
`UserUpdate` carries no such field. -/
theorem applyUserUpdate_superuser (hash : String → String) (u : User)
    (upd : UserUpdate) : (applyUserUpdate hash u upd).is_superuser = u.is_superuser := by
  unfold applyUserUpdate
  cases upd.email <;> cases upd.password <;> cases upd.username <;>
    cases upd.full_name <;> rfl

/-- C8: when the admin-edit entry point `update_user_admin` is called
on the admin's own row with `is_superuser = false`, it fails with 400
and the table is unchanged; the generic `update_user_service` path has
no such restriction - on any existing row it succeeds with any update,
and (having no superuser field in `UserUpdate`) leaves the superuser
flag exactly as it was. -/
theorem self_demotion_blocked_only_in_admin_path
    (hash : String → String) (db : List User) (user_id : Nat) (u : User)
    (hfound : get_user_by_id db user_id = some u)
    (email full_name : String) (upd : UserUpdate) :
    (update_user_admin db user_id email full_name false user_id
        = (Except.error ⟨400, "cannot_remove_own_superuser"⟩, db)) ∧
    (∃ u2 : User,
        update_user_service hash db user_id upd
          = (Except.ok u2, replaceUserById db user_id u2) ∧
        u2.is_superuser = u.is_superuser) := by
  have hfound2 : db.find? (fun v => v.id == user_id) = some u := hfound
  have hbeq := List.find?_some hfound2
  have hid : u.id = user_id := by simpa using hbeq
  constructor
  · unfold update_user_admin
    rw [hfound]
    simp [hid]
  · refine ⟨applyUserUpdate hash u upd, ?_, applyUserUpdate_superuser hash u upd⟩
    unfold update_user_service
    rw [hfound]

/-- Witness for C8 at a one-row table: admin 1 cannot demote
themselves, while the generic path updates their full name and keeps
the flag. -/
theorem self_demotion_blocked_only_in_admin_path_witness :
    (update_user_admin [⟨1, "a@x.com", "a", "h", none, true, true⟩] 1 "a@x.com" "B" false 1
        = (Except.error ⟨400, "cannot_remove_own_superuser"⟩,
           [⟨1, "a@x.com", "a", "h", none, true, true⟩])) ∧
    (∃ u2 : User,
        update_user_service (fun s => s) [⟨1, "a@x.com", "a", "h", none, true, true⟩] 1
            ⟨none, none, none, some "B"⟩
          = (Except.ok u2,
             replaceUserById [⟨1, "a@x.com", "a", "h", none, true, true⟩] 1 u2) ∧
        u2.is_superuser = (⟨1, "a@x.com", "a", "h", none, true, true⟩ : User).is_superuser) :=
  self_demotion_blocked_only_in_admin_path (fun s => s)
    [⟨1, "a@x.com", "a", "h", none, true, true⟩] 1
    ⟨1, "a@x.com", "a", "h", none, true, true⟩ rfl "a@x.com" "B" ⟨none, none, none, some "B"⟩

/-- Unfolding equation for `replaceProjectById` on a cons cell. -/
theorem replaceProjectById_cons (q : Project) (qs : List Project) (project_id : Nat)
    (p : Project) :
    replaceProjectById (q :: qs) project_id p
      = if (q.id == project_id) = true then p :: qs
        else q :: replaceProjectById qs project_id p := rfl

/-- After replacing the first row matching `project_id` with `p2`
(whose id still matches), the lookup finds `p2`. -/
theorem find?_replaceProjectById (l : List Project) (project_id : Nat) (p p2 : Project)
    (h : l.find? (fun q => q.id == project_id) = some p)
    (hid : (p2.id == project_id) = true) :
    (replaceProjectById l project_id p2).find? (fun q => q.id == project_id) = some p2 := by
  induction l with
  | nil => exact Option.noConfusion h
  | cons q qs ih =>
    by_cases hq : (q.id == project_id) = true
    · unfold replaceProjectById
      rw [if_pos hq]
      simp [List.find?, hid]
    · unfold replaceProjectById
      rw [if_neg hq]
      rw [List.find?] at h ⊢
      rw [Bool.of_not_eq_true hq] at h ⊢
      exact ih h

/-- Replacing back the originally found row undoes a replacement. -/
theorem replace_replaceProjectById (l : List Project) (project_id : Nat) (p p2 : Project)
    (h : l.find? (fun q => q.id == project_id) = some p)
    (hid : (p2.id == project_id) = true) :
    replaceProjectById (replaceProjectById l project_id p2) project_id p = l := by
  induction l with
  | nil => exact Option.noConfusion h
  | cons q qs ih =>
    by_cases hq : (q.id == project_id) = true
    · rw [List.find?] at h
      rw [hq] at h
      cases h
      rw [replaceProjectById_cons, if_pos hq, replaceProjectById_cons, if_pos hid]
    · rw [List.find?] at h
      rw [Bool.of_not_eq_true hq] at h
      rw [replaceProjectById_cons, if_neg hq, replaceProjectById_cons, if_neg hq, ih h]

/-- The project record with its publish flag flipped, as
`toggle_publish` writes it. -/
def flipPub (p : Project) : Project :=
  { p with is_published := !p.is_published }

/-- Flipping `is_published` twice gives back the original record. -/
theorem flipPub_flipPub (p : Project) : flipPub (flipPub p) = p := by
  cases p
  simp [flipPub]

/-- C7: on any existing project, one application of `toggle_publish`
succeeds and returns the project with `is_published` negated and every
other field unchanged, and a second application restores both the
project record and the whole store. -/
theorem toggle_publish_involutive (s : Store) (project_id : Nat) (p : Project)
    (hfind : get_project_by_id s project_id = some p) :
    ∃ p1 s1, toggle_publish s project_id = (Except.ok p1, s1) ∧
      p1.is_published = !p.is_published ∧
      p1.id = p.id ∧ p1.title = p.title ∧ p1.slug = p.slug ∧
      p1.subtitle = p.subtitle ∧ p1.description = p.description ∧
      p1.city_id = p.city_id ∧ p1.address = p.address ∧
      p1.project_class = p.project_class ∧ p1.status = p.status ∧
      p1.implementation_stage = p.implementation_stage ∧
      p1.completion_date = p.completion_date ∧
      p1.sold_percent = p.sold_percent ∧ p1.images = p.images ∧
      toggle_publish s1 project_id = (Except.ok p, s) := by
  have hfind2 : s.projects.find? (fun q => q.id == project_id) = some p := hfind
  have hbeq := List.find?_some hfind2
  have hbeq2 : ((flipPub p).id == project_id) = true := hbeq
  refine ⟨flipPub p,
    { s with projects := replaceProjectById s.projects project_id (flipPub p) },
    ?_, rfl, rfl, rfl, rfl, rfl, rfl, rfl, rfl, rfl, rfl, rfl, rfl, rfl, rfl, ?_⟩
  · simp only [toggle_publish, hfind]
    rfl
  · have hf2 : get_project_by_id
        { s with projects := replaceProjectById s.projects project_id (flipPub p) }
        project_id = some (flipPub p) :=
      find?_replaceProjectById s.projects project_id p (flipPub p) hfind2 hbeq2
    have hrr : replaceProjectById
        (replaceProjectById s.projects project_id (flipPub p)) project_id p
        = s.projects :=
      replace_replaceProjectById s.projects project_id p (flipPub p) hfind2 hbeq2
    have hflip : ({ flipPub p with is_published := !(flipPub p).is_published } : Project)
        = p := flipPub_flipPub p
    simp only [toggle_publish, hf2]
    rw [hflip, hrr]

/-- The one-project store used to witness C7. -/
def demoProject : Project :=
  ⟨1, "t", "s", none, none, 1, "addr", ProjectClass.economy,
   ProjectStatus.current, none, none, 0, [], false⟩

/-- The store holding `demoProject` and its city. -/
def demoStore : Store :=
  ⟨[⟨1, "c", "c", true, 0⟩], [demoProject]⟩

/-- Witness for C7: toggling the one project of a concrete store twice
returns record and store to their original values. -/
theorem toggle_publish_involutive_witness :
    ∃ p1 s1, toggle_publish demoStore 1 = (Except.ok p1, s1) ∧
      p1.is_published = !demoProject.is_published ∧
      p1.id = demoProject.id ∧ p1.title = demoProject.title ∧
      p1.slug = demoProject.slug ∧
      p1.subtitle = demoProject.subtitle ∧ p1.description = demoProject.description ∧
      p1.city_id = demoProject.city_id ∧ p1.address = demoProject.address ∧
      p1.project_class = demoProject.project_class ∧ p1.status = demoProject.status ∧
      p1.implementation_stage = demoProject.implementation_stage ∧
      p1.completion_date = demoProject.completion_date ∧
      p1.sold_percent = demoProject.sold_percent ∧ p1.images = demoProject.images ∧
      toggle_publish s1 1 = (Except.ok demoProject, demoStore) :=
  toggle_publish_involutive demoStore 1 demoProject rfl

/-- C6 counterexample: `create_project` with a duplicate slug and a
nonexistent city reports the 409 slug conflict, not the not-found the
claim promises whenever the city is missing (the slug check runs
first). -/
theorem slug_conflict_masks_missing_city :
    get_city_by_id demoStore 99 = none ∧
    (create_project demoStore 2
        ⟨"t2", "s", none, none, 99, "addr", ProjectClass.economy,
         ProjectStatus.current, none, none, 0, [], false⟩).1
      = Except.error ⟨409, "slug_exists"⟩ ∧
    (Except.error ⟨409, "slug_exists"⟩ : Except SvcError Project)
      ≠ Except.error ⟨404, "city_not_found"⟩ := by decide

/-- C6 (amended): referential integrity of `project.city_id`.  When
the referenced city does not exist, `create_project` fails - with 404
when the slug is fresh, though a duplicate slug is reported first as
409 - and writes nothing either way; `delete_city` on an existing city
is rejected with 400 (city kept) while any project, published or not,
references it, and succeeds once none does; and both operations
preserve the invariant that every stored project's city exists. -/
theorem city_referential_integrity :
    (∀ (s : Store) (next_id : Nat) (d : ProjectCreate),
        get_city_by_id s d.city_id = none →
        (get_project_by_slug s d.slug = none →
            create_project s next_id d = (Except.error ⟨404, "city_not_found"⟩, s)) ∧
        ∃ e, create_project s next_id d = (Except.error e, s)) ∧
    (∀ (s : Store) (city_id : Nat) (c : City),
        get_city_by_id s city_id = some c →
        (∃ p ∈ s.projects, p.city_id = city_id) →
        delete_city s city_id = (Except.error ⟨400, "city_has_projects"⟩, s)) ∧
    (∀ (s : Store) (city_id : Nat) (c : City),
        get_city_by_id s city_id = some c →
        (∀ p ∈ s.projects, p.city_id ≠ city_id) →
        delete_city s city_id
          = (Except.ok (),
             { s with cities := s.cities.filter (fun v => ¬ (v.id = city_id)) })) ∧
    (∀ (s : Store) (next_id : Nat) (d : ProjectCreate)
        (r : Except SvcError Project) (s2 : Store),
        cityRefsOk s → create_project s next_id d = (r, s2) → cityRefsOk s2) ∧
    (∀ (s : Store) (city_id : Nat) (r : Except SvcError Unit) (s2 : Store),
        cityRefsOk s → delete_city s city_id = (r, s2) → cityRefsOk s2) := by
  refine ⟨?_, ?_, ?_, ?_, ?_⟩
  · intro s next_id d hcity
    constructor
    · intro hslug
      unfold create_project
      simp [hslug, hcity]
    · by_cases hs : (get_project_by_slug s d.slug).isSome = true
      · exact ⟨⟨409, "slug_exists"⟩, by unfold create_project; simp [hs]⟩
      · exact ⟨⟨404, "city_not_found"⟩, by unfold create_project; simp [hs, hcity]⟩
  · rintro s city_id c hc ⟨p, hp, hpc⟩
    have hmem : p ∈ get_projects_by_city s city_id false := by
      unfold get_projects_by_city
      exact List.mem_filter.mpr ⟨hp, by simp [hpc]⟩
    have hne : get_projects_by_city s city_id false ≠ [] := List.ne_nil_of_mem hmem
    unfold delete_city
    simp only [hc]
    rw [if_pos hne]
  · intro s city_id c hc hall
    have hnil : get_projects_by_city s city_id false = [] := by
      unfold get_projects_by_city
      rw [List.filter_eq_nil_iff]
      intro a ha
      simp [hall a ha]
    unfold delete_city
    simp only [hc]
    rw [if_neg (not_not_intro hnil)]
  · intro s next_id d r s2 hinv hcp
    unfold create_project at hcp
    by_cases hs : (get_project_by_slug s d.slug).isSome = true
    · rw [if_pos hs] at hcp
      simp only [Prod.mk.injEq] at hcp
      obtain ⟨-, rfl⟩ := hcp
      exact hinv
    · rw [if_neg hs] at hcp
      by_cases hcid : (get_city_by_id s d.city_id).isNone = true
      · rw [if_pos hcid] at hcp
        simp only [Prod.mk.injEq] at hcp
        obtain ⟨-, rfl⟩ := hcp
        exact hinv
      · rw [if_neg hcid] at hcp
        simp only [Prod.mk.injEq] at hcp
        obtain ⟨-, rfl⟩ := hcp
        intro q hq
        rcases List.mem_append.mp hq with hql | hqr
        · exact hinv q hql
        · rcases hoc : get_city_by_id s d.city_id with _ | c
          · rw [hoc] at hcid
            simp at hcid
          · have hoc2 : s.cities.find? (fun v => v.id == d.city_id) = some c := hoc
            have hcmem : c ∈ s.cities := List.mem_of_find?_eq_some hoc2
            have hcbeq := List.find?_some hoc2
            have hcide : c.id = d.city_id := by simpa using hcbeq
            have hq2 : q.city_id = d.city_id := by
              rcases List.mem_singleton.mp hqr with rfl
              rfl
            exact ⟨c, hcmem, by rw [hcide, hq2]⟩
  · intro s city_id r s2 hinv hdel
    unfold delete_city at hdel
    rcases hoc : get_city_by_id s city_id with _ | c
    · rw [hoc] at hdel
      simp only [Prod.mk.injEq] at hdel
      obtain ⟨-, rfl⟩ := hdel
      exact hinv
    · rw [hoc] at hdel
      simp only at hdel
      by_cases hne : get_projects_by_city s city_id false ≠ []
      · rw [if_pos hne] at hdel
        simp only [Prod.mk.injEq] at hdel
        obtain ⟨-, rfl⟩ := hdel
        exact hinv
      · rw [if_neg hne] at hdel
        have hnil : get_projects_by_city s city_id false = [] := not_not.mp hne
        have hall : ∀ p ∈ s.projects, p.city_id ≠ city_id := by
          intro p hp hpc
          have : p ∈ get_projects_by_city s city_id false := by
            unfold get_projects_by_city
            exact List.mem_filter.mpr ⟨hp, by simp [hpc]⟩
          rw [hnil] at this
          exact List.not_mem_nil p this
        simp only [Prod.mk.injEq] at hdel
        obtain ⟨-, rfl⟩ := hdel
        intro q hq
        obtain ⟨c2, hc2, hc2id⟩ := hinv q hq
        refine ⟨c2, List.mem_filter.mpr ⟨hc2, ?_⟩, hc2id⟩
        have : c2.id ≠ city_id := by
          rw [hc2id]
          exact hall q hq
        simpa using this

/-- Witness for the amended C6: deleting the city of `demoStore`, which
its one project references, is rejected with 400 and the store is
unchanged. -/
theorem city_referential_integrity_witness :
    delete_city demoStore 1 = (Except.error ⟨400, "city_has_projects"⟩, demoStore) :=
  city_referential_integrity.2.1 demoStore 1 ⟨1, "c", "c", true, 0⟩ rfl
    ⟨demoProject, by decide, rfl⟩

/-- Removing a path from the model filesystem: the lookup afterwards
finds nothing. -/
theorem fsRead_fsRemoveIfPresent (fs : FS) (path : String) :
    fsRead (fsRemoveIfPresent fs path) path = none := by
  induction fs with
  | nil => rfl
  | cons e es ih =>
    unfold fsRemoveIfPresent at ih ⊢
    rw [List.filter_cons]
    by_cases he : e.1 = path
    · have hd : (decide ¬(e.1 = path)) = false := by simp [he]
      rw [hd, if_neg (by simp)]
      exact ih
    · have hd : (decide ¬(e.1 = path)) = true := by simp [he]
      rw [hd, if_pos rfl]
      unfold fsRead at ih ⊢
      rw [List.find?_cons_of_neg _ (by simp [he])]
      exact ih

/-- `compress_and_save_image` on a partial-write failure: generic
error, partial file removed. -/
theorem compress_failsWithPartial (fs : FS) (path : String) (content : List Nat)
    (file_extension : String) (processed : List Nat → List Nat) (w : List Nat) :
    compress_and_save_image fs path content file_extension processed
        (WriteOutcome.failsWithPartial w)
      = (Except.error "compress_failed", fsRemoveIfPresent (fsWrite fs path w) path) := by
  unfold compress_and_save_image
  by_cases hsvg : file_extension = ".svg" <;> simp [hsvg]

/-- `compress_and_save_image` on a failure before the file exists:
generic error, filesystem cleaned of the path (a no-op). -/
theorem compress_failsBeforeCreate (fs : FS) (path : String) (content : List Nat)
    (file_extension : String) (processed : List Nat → List Nat) :
    compress_and_save_image fs path content file_extension processed
        WriteOutcome.failsBeforeCreate
      = (Except.error "compress_failed", fsRemoveIfPresent fs path) := by
  unfold compress_and_save_image
  by_cases hsvg : file_extension = ".svg" <;> simp [hsvg]

/-- `compress_and_save_image` on a completed write answers the
destination path. -/
theorem compress_completes_fst (fs : FS) (path : String) (content : List Nat)
    (file_extension : String) (processed : List Nat → List Nat) :
    (compress_and_save_image fs path content file_extension processed
        WriteOutcome.completes).1 = Except.ok path := by
  unfold compress_and_save_image
  by_cases hsvg : file_extension = ".svg" <;> simp [hsvg]

/-- C9: when the underlying write pipeline fails - whether or not a
partial file was created - both `save_uploaded_file` and
`compress_and_save_image` signal their generic error and leave no file
at the destination path; when it completes, both return the
destination path. -/
theorem save_failure_cleanup (fs : FS) (path : String) (content : List Nat)
    (file_extension : String) (processed : List Nat → List Nat)
    (outcome : WriteOutcome) (hfail : outcome ≠ WriteOutcome.completes) :
    ((save_uploaded_file fs path content outcome).1 = Except.error "save_failed" ∧
     fsRead (save_uploaded_file fs path content outcome).2 path = none) ∧
    ((compress_and_save_image fs path content file_extension processed outcome).1
        = Except.error "compress_failed" ∧
     fsRead (compress_and_save_image fs path content file_extension processed outcome).2 path
        = none) ∧
    ((save_uploaded_file fs path content WriteOutcome.completes).1 = Except.ok path ∧
     (compress_and_save_image fs path content file_extension processed
        WriteOutcome.completes).1 = Except.ok path) := by
  cases outcome with
  | completes => exact absurd rfl hfail
  | failsWithPartial w =>
      refine ⟨⟨rfl, fsRead_fsRemoveIfPresent _ _⟩, ⟨?_, ?_⟩, rfl,
        compress_completes_fst fs path content file_extension processed⟩
      · rw [compress_failsWithPartial]
      · rw [compress_failsWithPartial]
        exact fsRead_fsRemoveIfPresent _ _
  | failsBeforeCreate =>
      refine ⟨⟨rfl, fsRead_fsRemoveIfPresent _ _⟩, ⟨?_, ?_⟩, rfl,
        compress_completes_fst fs path content file_extension processed⟩
      · rw [compress_failsBeforeCreate]
      · rw [compress_failsBeforeCreate]
        exact fsRead_fsRemoveIfPresent _ _

/-- Witness for C9 at a concrete failing write of `img.png`. -/
theorem save_failure_cleanup_witness :
    ((save_uploaded_file [] "img.png" [1, 2] (WriteOutcome.failsWithPartial [1])).1
        = Except.error "save_failed" ∧
     fsRead (save_uploaded_file [] "img.png" [1, 2]
        (WriteOutcome.failsWithPartial [1])).2 "img.png" = none) ∧
    ((compress_and_save_image [] "img.png" [1, 2] ".png" (fun c => c)
        (WriteOutcome.failsWithPartial [1])).1 = Except.error "compress_failed" ∧
     fsRead (compress_and_save_image [] "img.png" [1, 2] ".png" (fun c => c)
        (WriteOutcome.failsWithPartial [1])).2 "img.png" = none) ∧
    ((save_uploaded_file [] "img.png" [1, 2] WriteOutcome.completes).1
        = Except.ok "img.png" ∧
     (compress_and_save_image [] "img.png" [1, 2] ".png" (fun c => c)
        WriteOutcome.completes).1 = Except.ok "img.png") :=
  save_failure_cleanup [] "img.png" [1, 2] ".png" (fun c => c)
    (WriteOutcome.failsWithPartial [1]) (by decide)

end StConstruction
